import Mathlib

/-!
# Verification of the tax-compare rule engine and inversion layer

A shallow embedding of `src/taxRules.ts` over the rationals: the forward
per-country Employee calculators, the flat-rate placeholder profiles, the
generic bisection primitive `binarySearchGross`, and the per-country
inversion helpers, together with proofs of the specified properties.
-/

namespace TaxCompare

/-- The supported countries (`countries`, taxRules.ts line 1). -/
inductive Country where
  | Bulgaria
  | Estonia
  | Greece
deriving DecidableEq, Repr

/-- The supported employment profiles (`profiles`, taxRules.ts line 2). -/
inductive Profile where
  | Employee
  | SelfEmployed
  | SmallBusiness
deriving DecidableEq, Repr

/-- Result of every forward calculation (`TaxBreakdown`, taxRules.ts lines 7-12).
The `breakdown` field models the insertion-ordered string-keyed record. -/
structure TaxBreakdown where
  tax : ℚ
  net : ℚ
  entireExpense : ℚ
  breakdown : List (String × ℚ)
deriving Repr

/-- Estonia monthly tax-free allowance with phase-out
(step 4 of `estoniaEmployee`, taxRules.ts lines 38-46): the annual allowance is
654*12 = 7848 up to annual gross 14400, linearly phased out to 0 between 14400
and 25200, and 0 above 25200; the monthly figure divides by 12. -/
def estoniaTaxFree (gross : ℚ) : ℚ :=
  let annualGross := gross * 12
  let annualTaxFree :=
    if 14400 < annualGross ∧ annualGross ≤ 25200 then
      7848 - 7848 * ((annualGross - 14400) / 10800)
    else if 25200 < annualGross then 0
    else 654 * 12
  annualTaxFree / 12

/-- `estoniaEmployee` (taxRules.ts lines 27-86). Rates: pension 2%, employee
unemployment 1.6%, income tax 22% of (gross - pension - unemp - taxFree)
clamped at 0, employer social tax 33%, employer unemployment 0.8%. -/
def estoniaEmployee (income : ℚ) (_expenses : ℚ := 0) (_salaryPayments : ℚ := 12) :
    TaxBreakdown :=
  let gross := income
  let pension := gross * (2/100)
  let unemp := gross * (16/1000)
  let taxFree := estoniaTaxFree gross
  let taxable := gross - pension - unemp - taxFree
  let incomeTax := max 0 (taxable * (22/100))
  let net := gross - pension - unemp - incomeTax
  let socialTax := gross * (33/100)
  let employerUnemp := gross * (8/1000)
  let entireExpense := gross + socialTax + employerUnemp
  { tax := incomeTax + pension + unemp
    net := net
    entireExpense := entireExpense
    breakdown := [
      ("Gross", gross),
      ("Pension (II pillar)", pension),
      ("Unemployment (Employee)", unemp),
      ("Tax-free Allowance", taxFree),
      ("Taxable Income", taxable),
      ("Income Tax (22%)", incomeTax),
      ("Net Salary", net),
      ("Social Tax (Employer)", socialTax),
      ("Unemployment (Employer)", employerUnemp),
      ("Entire Expense", entireExpense)] }

/-- `bulgariaEmployee` (taxRules.ts lines 95-139). Rates: employee social
security 13.78% of gross, income tax 10% of the remainder, employer social
security 19.18%. -/
def bulgariaEmployee (income : ℚ) (_expenses : ℚ := 0) (_salaryPayments : ℚ := 12) :
    TaxBreakdown :=
  let socSecEmployee := income * (1378/10000)
  let taxable := income - socSecEmployee
  let incomeTax := taxable * (10/100)
  let net := income - socSecEmployee - incomeTax
  let socSecEmployer := income * (1918/10000)
  let entireExpense := income + socSecEmployer
  { tax := socSecEmployee + incomeTax
    net := net
    entireExpense := entireExpense
    breakdown := [
      ("Gross", income),
      ("Employee Social Security (13.78%)", socSecEmployee),
      ("Employer Social Security (19.18%)", socSecEmployer),
      ("Taxable Income", taxable),
      ("Income Tax (10%)", incomeTax),
      ("Net Salary", net),
      ("Entire Expense", entireExpense)] }

/-- Greece progressive annual income tax schedule
(step 4 of `greeceEmployee`, taxRules.ts lines 165-170): 9% up to 10000,
22% for 10000-20000, 28% for 20000-30000, 36% for 30000-40000, 44% above. -/
def greeceIncomeTax (annualTaxable : ℚ) : ℚ :=
  if annualTaxable ≤ 10000 then annualTaxable * (9/100)
  else if annualTaxable ≤ 20000 then
    10000 * (9/100) + (annualTaxable - 10000) * (22/100)
  else if annualTaxable ≤ 30000 then
    10000 * (9/100) + 10000 * (22/100) + (annualTaxable - 20000) * (28/100)
  else if annualTaxable ≤ 40000 then
    10000 * (9/100) + 10000 * (22/100) + 10000 * (28/100) +
      (annualTaxable - 30000) * (36/100)
  else
    10000 * (9/100) + 10000 * (22/100) + 10000 * (28/100) + 10000 * (36/100) +
      (annualTaxable - 40000) * (44/100)

/-- Greece progressive solidarity contribution
(step 5 of `greeceEmployee`, taxRules.ts lines 173-177): 0 up to 12000, 2.2%
for 12000-20000, 5% for 20000-30000, 6% for 30000-40000, 8% above 40000. -/
def greeceSolidarity (annualTaxable : ℚ) : ℚ :=
  if 12000 < annualTaxable ∧ annualTaxable ≤ 20000 then
    (annualTaxable - 12000) * (22/1000)
  else if 20000 < annualTaxable ∧ annualTaxable ≤ 30000 then
    8000 * (22/1000) + (annualTaxable - 20000) * (5/100)
  else if 30000 < annualTaxable ∧ annualTaxable ≤ 40000 then
    8000 * (22/1000) + 10000 * (5/100) + (annualTaxable - 30000) * (6/100)
  else if 40000 < annualTaxable then
    8000 * (22/1000) + 10000 * (5/100) + 10000 * (6/100) +
      (annualTaxable - 40000) * (8/100)
  else 0

/-- `greeceEmployee` (taxRules.ts lines 148-224). Employee social security
14.12% of gross, income annualized by `salaryPayments`, progressive income tax
and solidarity contribution on annual taxable income, employer social security
22.29%; `net` and `entireExpense` are converted back to monthly figures, while
the returned `tax` is the annual total as in the source. -/
def greeceEmployee (income : ℚ) (_expenses : ℚ := 0) (salaryPayments : ℚ := 14) :
    TaxBreakdown :=
  let annualGross := income * salaryPayments
  let socSecRate := (1412/10000 : ℚ)
  let monthlySocSec := income * socSecRate
  let annualSocSec := monthlySocSec * salaryPayments
  let annualTaxable := annualGross - annualSocSec
  let annualIncomeTax := greeceIncomeTax annualTaxable
  let solidarity := greeceSolidarity annualTaxable
  let netAnnual := annualGross - annualSocSec - annualIncomeTax - solidarity
  let netMonthly := netAnnual / salaryPayments
  let employerSocSecRate := (2229/10000 : ℚ)
  let monthlyEmployerSocSec := income * employerSocSecRate
  let annualEmployerSocSec := monthlyEmployerSocSec * salaryPayments
  let entireExpense := annualGross + annualEmployerSocSec
  { tax := annualSocSec + annualIncomeTax + solidarity
    net := netMonthly
    entireExpense := entireExpense / salaryPayments
    breakdown := [
      ("Gross (monthly)", income),
      ("Gross (annual)", annualGross),
      ("Employee Social Security (monthly)", monthlySocSec),
      ("Employee Social Security (annual)", annualSocSec),
      ("Employer Social Security (monthly)", monthlyEmployerSocSec),
      ("Employer Social Security (annual)", annualEmployerSocSec),
      ("Taxable Income (annual)", annualTaxable),
      ("Income Tax (annual)", annualIncomeTax),
      ("Solidarity Contribution (annual)", solidarity),
      ("Net Salary (annual)", netAnnual),
      ("Net Salary (monthly)", netMonthly),
      ("Entire Expense (annual)", entireExpense),
      ("Entire Expense (monthly)", entireExpense / salaryPayments)] }

/-- Flat-rate placeholder result shared by the non-employee profiles
(taxRules.ts lines 231-284): each placeholder computes
`tax = (income - expenses) * rate`, `net = (income - expenses) * keepRate`
and `entireExpense = income`, where `keepRate = 1 - rate` in the source. -/
def flatPlaceholder (rate keepRate income expenses : ℚ) : TaxBreakdown :=
  let taxable := income - expenses
  let tax := taxable * rate
  let net := taxable * keepRate
  let entireExpense := income
  { tax := tax
    net := net
    entireExpense := entireExpense
    breakdown := [("Flat Tax", tax), ("Net", net), ("Entire Expense", entireExpense)] }

/-- The rule table `taxRules` (taxRules.ts lines 228-286): a total mapping from
(country, profile) to the forward calculation. Placeholder rates: Bulgaria
15%/12%, Estonia 25%/20%, Greece 26%/24% for Self-Employed/Small Business. -/
def taxRules (country : Country) (profile : Profile)
    (income expenses salaryPayments : ℚ) : TaxBreakdown :=
  match country, profile with
  | .Bulgaria, .Employee => bulgariaEmployee income expenses salaryPayments
  | .Bulgaria, .SelfEmployed => flatPlaceholder (15/100) (85/100) income expenses
  | .Bulgaria, .SmallBusiness => flatPlaceholder (12/100) (88/100) income expenses
  | .Estonia, .Employee => estoniaEmployee income expenses salaryPayments
  | .Estonia, .SelfEmployed => flatPlaceholder (25/100) (75/100) income expenses
  | .Estonia, .SmallBusiness => flatPlaceholder (20/100) (80/100) income expenses
  | .Greece, .Employee => greeceEmployee income expenses salaryPayments
  | .Greece, .SelfEmployed => flatPlaceholder (26/100) (74/100) income expenses
  | .Greece, .SmallBusiness => flatPlaceholder (24/100) (76/100) income expenses

/-- The loop of `binarySearchGross` (taxRules.ts lines 299-309): `fuel` is the
number of remaining iterations and `mid` the last computed midpoint (0 before
the first iteration, matching `let mid = 0`). Each iteration recomputes
`mid = (low+high)/2`, evaluates `fn mid` once, returns `mid` when within
`tolerance` of `target`, otherwise narrows the bracket; when the fuel is
exhausted the last midpoint is returned. -/
def bsGo (fn : ℚ → ℚ) (target tolerance : ℚ) : ℚ → ℚ → ℚ → ℕ → ℚ
  | _, _, mid, 0 => mid
  | low, high, _, fuel + 1 =>
    let mid := (low + high) / 2
    let value := fn mid
    if |value - target| < tolerance then mid
    else if target < value then bsGo fn target tolerance low mid mid fuel
    else bsGo fn target tolerance mid high mid fuel

/-- `binarySearchGross` (taxRules.ts lines 291-310), generic bisection with
default tolerance 0.01 and default iteration cap 50. -/
def binarySearchGross (fn : ℚ → ℚ) (target min max : ℚ)
    (tolerance : ℚ := 1/100) (maxIter : ℕ := 50) : ℚ :=
  bsGo fn target tolerance min max 0 maxIter

/-- Instrumented variant of the `binarySearchGross` loop that also counts how
many times `fn` is evaluated; used to state the iteration/evaluation bound. -/
def bsGoCount (fn : ℚ → ℚ) (target tolerance : ℚ) : ℚ → ℚ → ℚ → ℕ → ℚ × ℕ
  | _, _, mid, 0 => (mid, 0)
  | low, high, _, fuel + 1 =>
    let mid := (low + high) / 2
    let value := fn mid
    if |value - target| < tolerance then (mid, 1)
    else if target < value then
      let rest := bsGoCount fn target tolerance low mid mid fuel
      (rest.1, rest.2 + 1)
    else
      let rest := bsGoCount fn target tolerance mid high mid fuel
      (rest.1, rest.2 + 1)

/-- `findBulgariaGrossForNet` (taxRules.ts lines 313-321): closed form
`net / 0.77598`. -/
def findBulgariaGrossForNet (net : ℚ) : ℚ :=
  net / (77598/100000)

/-- `findBulgariaGrossForEntireExpense` (taxRules.ts lines 322-325): closed
form `entire / 1.1918`. -/
def findBulgariaGrossForEntireExpense (entire : ℚ) : ℚ :=
  entire / (11918/10000)

/-- `findEstoniaGrossForNet` (taxRules.ts lines 328-339): bisection of the
Estonia forward net over the bracket `[net, net*2]`. -/
def findEstoniaGrossForNet (net : ℚ) : ℚ :=
  binarySearchGross (fun gross => (estoniaEmployee gross).net) net net (net * 2)

/-- `findEstoniaGrossForEntireExpense` (taxRules.ts lines 340-343): closed
form `entire / 1.338`. -/
def findEstoniaGrossForEntireExpense (entire : ℚ) : ℚ :=
  entire / (1338/1000)

/-- `findGreeceGrossForNet` (taxRules.ts lines 346-357): bisection of the
Greece forward net (at the given `salaryPayments`) over `[net, net*2]`. -/
def findGreeceGrossForNet (net : ℚ) (salaryPayments : ℚ) : ℚ :=
  binarySearchGross (fun gross => (greeceEmployee gross 0 salaryPayments).net)
    net net (net * 2)

/-- `findGreeceGrossForEntireExpense` (taxRules.ts lines 358-365): closed form
`entire / 1.2229`; the `salaryPayments` parameter is unused in the source. -/
def findGreeceGrossForEntireExpense (entire : ℚ) (_salaryPayments : ℚ) : ℚ :=
  entire / (12229/10000)

/-! ## Projection equations -/

lemma estoniaEmployee_net (g e p : ℚ) : (estoniaEmployee g e p).net =
    g - g * (2/100) - g * (16/1000) -
      max 0 ((g - g * (2/100) - g * (16/1000) - estoniaTaxFree g) * (22/100)) := rfl

lemma estoniaEmployee_tax (g e p : ℚ) : (estoniaEmployee g e p).tax =
    max 0 ((g - g * (2/100) - g * (16/1000) - estoniaTaxFree g) * (22/100)) +
      g * (2/100) + g * (16/1000) := rfl

lemma estoniaEmployee_entireExpense (g e p : ℚ) :
    (estoniaEmployee g e p).entireExpense = g + g * (33/100) + g * (8/1000) := rfl

lemma bulgariaEmployee_net (g e p : ℚ) : (bulgariaEmployee g e p).net =
    g - g * (1378/10000) - (g - g * (1378/10000)) * (10/100) := rfl

lemma bulgariaEmployee_tax (g e p : ℚ) : (bulgariaEmployee g e p).tax =
    g * (1378/10000) + (g - g * (1378/10000)) * (10/100) := rfl

lemma bulgariaEmployee_entireExpense (g e p : ℚ) :
    (bulgariaEmployee g e p).entireExpense = g + g * (1918/10000) := rfl

lemma greeceEmployee_net (g e p : ℚ) : (greeceEmployee g e p).net =
    (g * p - g * (1412/10000) * p -
      greeceIncomeTax (g * p - g * (1412/10000) * p) -
      greeceSolidarity (g * p - g * (1412/10000) * p)) / p := rfl

lemma greeceEmployee_tax (g e p : ℚ) : (greeceEmployee g e p).tax =
    g * (1412/10000) * p +
      greeceIncomeTax (g * p - g * (1412/10000) * p) +
      greeceSolidarity (g * p - g * (1412/10000) * p) := rfl

lemma greeceEmployee_entireExpense (g e p : ℚ) :
    (greeceEmployee g e p).entireExpense = (g * p + g * (2229/10000) * p) / p := rfl

lemma flatPlaceholder_tax (r k i e : ℚ) : (flatPlaceholder r k i e).tax = (i - e) * r := rfl

lemma flatPlaceholder_net (r k i e : ℚ) : (flatPlaceholder r k i e).net = (i - e) * k := rfl

lemma flatPlaceholder_entireExpense (r k i e : ℚ) :
    (flatPlaceholder r k i e).entireExpense = i := rfl

/-! ## Elementary facts about clamping at zero -/

lemma max0_mono {a b : ℚ} (h : a ≤ b) : max 0 a ≤ max 0 b := max_le_max le_rfl h

lemma max0_sub_le {a b : ℚ} (h : b ≤ a) : max 0 a - max 0 b ≤ a - b := by
  simp only [max_def]
  split_ifs <;> linarith

/-! ## Estonia tax-free allowance -/

/-- The allowance equals `(109/150) * (2100 - g)` clamped to `[0, 654]`. -/
lemma estoniaTaxFree_eq (g : ℚ) :
    estoniaTaxFree g = max 0 (min 654 ((109/150) * (2100 - g))) := by
  simp only [estoniaTaxFree]
  split_ifs with h1 h2
  · obtain ⟨a, b⟩ := h1
    rw [min_eq_right (by linarith), max_eq_right (by linarith)]
    field_simp
    ring
  · rw [min_eq_right (by linarith), max_eq_left (by linarith)]
    norm_num
  · push_neg at h1 h2
    rcases le_or_lt g 1200 with h3 | h3
    · rw [min_eq_left (by linarith), max_eq_right (by norm_num)]
      norm_num
    · exact absurd (h1 (by linarith)) (by push_neg; linarith)

lemma estoniaTaxFree_nonneg (g : ℚ) : 0 ≤ estoniaTaxFree g := by
  rw [estoniaTaxFree_eq]; exact le_max_left _ _

lemma estoniaTaxFree_antitone {x y : ℚ} (h : x ≤ y) :
    estoniaTaxFree y ≤ estoniaTaxFree x := by
  rw [estoniaTaxFree_eq, estoniaTaxFree_eq]
  simp only [max_def, min_def]
  split_ifs <;> linarith

lemma estoniaTaxFree_slope {x y : ℚ} (h : x ≤ y) :
    estoniaTaxFree x - estoniaTaxFree y ≤ (109/150) * (y - x) := by
  rw [estoniaTaxFree_eq, estoniaTaxFree_eq]
  simp only [max_def, min_def]
  split_ifs <;> linarith

/-! ## Estonia net / cost facts -/

lemma estonia_net_mono {x y : ℚ} (h : x ≤ y) :
    (estoniaEmployee x).net ≤ (estoniaEmployee y).net := by
  rw [estoniaEmployee_net, estoniaEmployee_net]
  have hs := estoniaTaxFree_slope h
  have ha := estoniaTaxFree_antitone h
  have hb : (x - x * (2/100) - x * (16/1000) - estoniaTaxFree x) * (22/100) ≤
      (y - y * (2/100) - y * (16/1000) - estoniaTaxFree y) * (22/100) := by linarith
  have hm := max0_sub_le hb
  linarith

lemma estonia_net_lip {x y : ℚ} (h : x ≤ y) :
    (estoniaEmployee y).net - (estoniaEmployee x).net ≤ y - x := by
  rw [estoniaEmployee_net, estoniaEmployee_net]
  have ha := estoniaTaxFree_antitone h
  have hb : (x - x * (2/100) - x * (16/1000) - estoniaTaxFree x) * (22/100) ≤
      (y - y * (2/100) - y * (16/1000) - estoniaTaxFree y) * (22/100) := by linarith
  have hm := max0_mono hb
  linarith

lemma estonia_net_le {g : ℚ} (h : 0 ≤ g) : (estoniaEmployee g).net ≤ g := by
  rw [estoniaEmployee_net]
  have := le_max_left (0 : ℚ)
    ((g - g * (2/100) - g * (16/1000) - estoniaTaxFree g) * (22/100))
  linarith

lemma estonia_net_2x {n : ℚ} (h : 0 < n) : n < (estoniaEmployee (n * 2)).net := by
  rw [estoniaEmployee_net]
  have h1 := estoniaTaxFree_nonneg (n * 2)
  have h2 : (n * 2 - n * 2 * (2/100) - n * 2 * (16/1000) - estoniaTaxFree (n * 2)) * (22/100) ≤
      n * 2 * (241/250) * (22/100) := by linarith
  have h3 : max 0 ((n * 2 - n * 2 * (2/100) - n * 2 * (16/1000) -
      estoniaTaxFree (n * 2)) * (22/100)) ≤ n * 2 * (241/250) * (22/100) :=
    max_le (by linarith) h2
  linarith

/-! ## Greece net / cost facts -/

lemma greeceSolidarity_eq (t : ℚ) : greeceSolidarity t =
    if t ≤ 12000 then 0
    else if t ≤ 20000 then (t - 12000) * (22/1000)
    else if t ≤ 30000 then 176 + (t - 20000) * (5/100)
    else if t ≤ 40000 then 676 + (t - 30000) * (6/100)
    else 1276 + (t - 40000) * (8/100) := by
  simp only [greeceSolidarity]
  rcases le_or_lt t 12000 with h1 | h1
  · rw [if_neg (by rintro ⟨a, b⟩; linarith), if_neg (by rintro ⟨a, b⟩; linarith),
      if_neg (by rintro ⟨a, b⟩; linarith), if_neg (by linarith), if_pos h1]
  · rcases le_or_lt t 20000 with h2 | h2
    · rw [if_pos ⟨h1, h2⟩, if_neg (by linarith), if_pos h2]
    · rcases le_or_lt t 30000 with h3 | h3
      · rw [if_neg (by rintro ⟨a, b⟩; linarith), if_pos ⟨h2, h3⟩,
          if_neg (by linarith), if_neg (by linarith), if_pos h3]
        norm_num
      · rcases le_or_lt t 40000 with h4 | h4
        · rw [if_neg (by rintro ⟨a, b⟩; linarith), if_neg (by rintro ⟨a, b⟩; linarith),
            if_pos ⟨h3, h4⟩, if_neg (by linarith), if_neg (by linarith),
            if_neg (by linarith), if_pos h4]
          norm_num
        · rw [if_neg (by rintro ⟨a, b⟩; linarith), if_neg (by rintro ⟨a, b⟩; linarith),
            if_neg (by rintro ⟨a, b⟩; linarith), if_pos (by linarith),
            if_neg (by linarith), if_neg (by linarith), if_neg (by linarith),
            if_neg (by linarith)]
          norm_num

lemma greeceSolidarity_nonneg (t : ℚ) : 0 ≤ greeceSolidarity t := by
  rw [greeceSolidarity_eq]
  split_ifs <;> push_neg at * <;> linarith

lemma greeceSolidarity_mono {s t : ℚ} (h : s ≤ t) :
    greeceSolidarity s ≤ greeceSolidarity t := by
  rw [greeceSolidarity_eq, greeceSolidarity_eq]
  split_ifs <;> push_neg at * <;> linarith

lemma greeceSolidarity_slope {s t : ℚ} (h : s ≤ t) :
    greeceSolidarity t - greeceSolidarity s ≤ (8/100) * (t - s) := by
  rw [greeceSolidarity_eq, greeceSolidarity_eq]
  split_ifs <;> push_neg at * <;> linarith

lemma greeceIncomeTax_nonneg {t : ℚ} (h : 0 ≤ t) : 0 ≤ greeceIncomeTax t := by
  simp only [greeceIncomeTax]
  split_ifs <;> push_neg at * <;> linarith

lemma greeceIncomeTax_mono {s t : ℚ} (h : s ≤ t) :
    greeceIncomeTax s ≤ greeceIncomeTax t := by
  simp only [greeceIncomeTax]
  split_ifs <;> push_neg at * <;> linarith

lemma greeceIncomeTax_slope {s t : ℚ} (h : s ≤ t) :
    greeceIncomeTax t - greeceIncomeTax s ≤ (44/100) * (t - s) := by
  simp only [greeceIncomeTax]
  split_ifs <;> push_neg at * <;> linarith

lemma greece_num_mono {s t : ℚ} (h : s ≤ t) :
    s - greeceIncomeTax s - greeceSolidarity s ≤
      t - greeceIncomeTax t - greeceSolidarity t := by
  have h1 := greeceIncomeTax_slope h
  have h2 := greeceSolidarity_slope h
  linarith

lemma greece_net_mono {p x y : ℚ} (hp : 0 < p) (h : x ≤ y) (e : ℚ) :
    (greeceEmployee x e p).net ≤ (greeceEmployee y e p).net := by
  rw [greeceEmployee_net, greeceEmployee_net]
  rw [div_le_div_iff_of_pos_right hp]
  exact greece_num_mono (by nlinarith [mul_nonneg (sub_nonneg.2 h) hp.le])

lemma greece_net_lip {p x y : ℚ} (hp : 0 < p) (h : x ≤ y) (e : ℚ) :
    (greeceEmployee y e p).net - (greeceEmployee x e p).net ≤ y - x := by
  rw [greeceEmployee_net, greeceEmployee_net]
  set s := x * p - x * (1412/10000) * p with hs
  set t := y * p - y * (1412/10000) * p with ht
  have hst : s ≤ t := by
    rw [hs, ht]
    nlinarith [mul_nonneg (sub_nonneg.2 h) hp.le]
  have h1 := greeceIncomeTax_mono hst
  have h2 := greeceSolidarity_mono hst
  rw [div_sub_div_same, div_le_iff hp]
  have hts : t - s ≤ (y - x) * p := by
    rw [hs, ht]
    nlinarith [mul_nonneg (sub_nonneg.2 h) hp.le]
  linarith

lemma greece_net_le {g p : ℚ} (hg : 0 ≤ g) (hp : 0 < p) (e : ℚ) :
    (greeceEmployee g e p).net ≤ g := by
  rw [greeceEmployee_net]
  set t := g * p - g * (1412/10000) * p with ht
  have ht0 : 0 ≤ t := by
    rw [ht]
    nlinarith [mul_nonneg hg hp.le]
  have h1 := greeceIncomeTax_nonneg ht0
  have h2 := greeceSolidarity_nonneg t
  rw [div_le_iff hp]
  have : t ≤ g * p := by
    rw [ht]
    nlinarith [mul_nonneg hg hp.le]
  linarith

lemma greece_cost_eq {p : ℚ} (hp : p ≠ 0) (g e : ℚ) :
    (greeceEmployee g e p).entireExpense = g * (12229/10000) := by
  rw [greeceEmployee_entireExpense]
  field_simp
  ring

/-! ## Bisection loop facts -/

lemma bsGo_zero (fn : ℚ → ℚ) (target tol lo hi m : ℚ) :
    bsGo fn target tol lo hi m 0 = m := rfl

lemma bsGo_succ (fn : ℚ → ℚ) (target tol lo hi m : ℚ) (n : ℕ) :
    bsGo fn target tol lo hi m (n + 1) =
      if |fn ((lo + hi) / 2) - target| < tol then (lo + hi) / 2
      else if target < fn ((lo + hi) / 2) then
        bsGo fn target tol lo ((lo + hi) / 2) ((lo + hi) / 2) n
      else bsGo fn target tol ((lo + hi) / 2) hi ((lo + hi) / 2) n := rfl

lemma bsGoCount_succ (fn : ℚ → ℚ) (target tol lo hi m : ℚ) (n : ℕ) :
    bsGoCount fn target tol lo hi m (n + 1) =
      if |fn ((lo + hi) / 2) - target| < tol then ((lo + hi) / 2, 1)
      else if target < fn ((lo + hi) / 2) then
        ((bsGoCount fn target tol lo ((lo + hi) / 2) ((lo + hi) / 2) n).1,
         (bsGoCount fn target tol lo ((lo + hi) / 2) ((lo + hi) / 2) n).2 + 1)
      else
        ((bsGoCount fn target tol ((lo + hi) / 2) hi ((lo + hi) / 2) n).1,
         (bsGoCount fn target tol ((lo + hi) / 2) hi ((lo + hi) / 2) n).2 + 1) := rfl

/-- The instrumented loop returns the same midpoint as the plain loop. -/
lemma bsGoCount_fst (fn : ℚ → ℚ) (target tol : ℚ) :
    ∀ (n : ℕ) (lo hi m : ℚ),
      (bsGoCount fn target tol lo hi m n).1 = bsGo fn target tol lo hi m n := by
  intro n
  induction n with
  | zero => intro lo hi m; rfl
  | succ k ih =>
    intro lo hi m
    rw [bsGoCount_succ, bsGo_succ]
    split_ifs <;> simp [ih]

/-- The loop evaluates `fn` at most once per unit of fuel. -/
lemma bsGoCount_le (fn : ℚ → ℚ) (target tol : ℚ) :
    ∀ (n : ℕ) (lo hi m : ℚ), (bsGoCount fn target tol lo hi m n).2 ≤ n := by
  intro n
  induction n with
  | zero => intro lo hi m; exact le_rfl
  | succ k ih =>
    intro lo hi m
    rw [bsGoCount_succ]
    split_ifs <;> simp <;> exact ih _ _ _

/-- With target 0 and the degenerate bracket `[0, 0]`, every midpoint is 0 and
the loop terminates with 0 for any fuel and tolerance. -/
lemma bsGo_degenerate (fn : ℚ → ℚ) (tol : ℚ) :
    ∀ n : ℕ, bsGo fn 0 tol 0 0 0 n = 0 := by
  intro n
  induction n with
  | zero => rfl
  | succ k ih =>
    rw [bsGo_succ]
    have h00 : ((0 : ℚ) + 0) / 2 = 0 := by norm_num
    rw [h00]
    split_ifs <;> first | rfl | exact ih

/-- Convergence of the bisection loop: if `fn` grows at most as fast as its
argument, the bracket endpoints straddle the target, and the bracket width is
below `tol * 2 ^ fuel`, the returned midpoint meets the tolerance. -/
lemma bsGo_conv (fn : ℚ → ℚ) (target tol : ℚ)
    (hlip : ∀ x y : ℚ, x ≤ y → fn y - fn x ≤ y - x) :
    ∀ (n : ℕ) (lo hi m : ℚ), fn lo ≤ target → target < fn hi → lo ≤ hi →
      hi - lo < tol * 2 ^ (n + 1) →
      |fn (bsGo fn target tol lo hi m (n + 1)) - target| < tol := by
  intro n
  induction n with
  | zero =>
    intro lo hi m hlo hhi hle hw
    rw [bsGo_succ]
    have h1 : lo ≤ (lo + hi) / 2 := by linarith
    have h2 : (lo + hi) / 2 ≤ hi := by linarith
    have hup := hlip lo ((lo + hi) / 2) h1
    have hdn := hlip ((lo + hi) / 2) hi h2
    have hw1 : hi - lo < tol * 2 := by
      have : (2 : ℚ) ^ (0 + 1) = 2 := by norm_num
      rw [this] at hw
      linarith
    have habs : |fn ((lo + hi) / 2) - target| < tol := by
      rw [abs_lt]
      constructor <;> linarith
    rw [if_pos habs]
    exact habs
  | succ k ih =>
    intro lo hi m hlo hhi hle hw
    rw [bsGo_succ]
    have h1 : lo ≤ (lo + hi) / 2 := by linarith
    have h2 : (lo + hi) / 2 ≤ hi := by linarith
    have hw2 : (2 : ℚ) ^ (k + 1 + 1) = 2 ^ (k + 1) * 2 := pow_succ 2 (k + 1)
    by_cases habs : |fn ((lo + hi) / 2) - target| < tol
    · rw [if_pos habs]
      exact habs
    · rw [if_neg habs]
      by_cases hv : target < fn ((lo + hi) / 2)
      · rw [if_pos hv]
        exact ih lo ((lo + hi) / 2) ((lo + hi) / 2) hlo hv h1
          (by rw [hw2] at hw; linarith)
      · rw [if_neg hv]
        push_neg at hv
        exact ih ((lo + hi) / 2) hi ((lo + hi) / 2) hv hhi h2
          (by rw [hw2] at hw; linarith)

/-- When `fn` stays at least `tol` below the target on the whole bracket, the
loop never exits early, always narrows to the upper half, and returns
`hi - (hi - lo) / 2 ^ fuel`. -/
lemma bsGo_all_low (fn : ℚ → ℚ) (target tol : ℚ) (htol : 0 ≤ tol) :
    ∀ (n : ℕ) (lo hi m : ℚ), lo ≤ hi →
      (∀ x : ℚ, lo ≤ x → x ≤ hi → fn x ≤ target - tol) →
      bsGo fn target tol lo hi m (n + 1) = hi - (hi - lo) / 2 ^ (n + 1) := by
  intro n
  induction n with
  | zero =>
    intro lo hi m hle hbelow
    rw [bsGo_succ]
    have h1 : lo ≤ (lo + hi) / 2 := by linarith
    have h2 : (lo + hi) / 2 ≤ hi := by linarith
    have hb := hbelow _ h1 h2
    rw [if_neg (by rw [abs_lt]; push_neg; intro hc; linarith),
      if_neg (by push_neg; linarith), bsGo_zero]
    ring
  | succ k ih =>
    intro lo hi m hle hbelow
    rw [bsGo_succ]
    have h1 : lo ≤ (lo + hi) / 2 := by linarith
    have h2 : (lo + hi) / 2 ≤ hi := by linarith
    have hb := hbelow _ h1 h2
    rw [if_neg (by rw [abs_lt]; push_neg; intro hc; linarith),
      if_neg (by push_neg; linarith),
      ih ((lo + hi) / 2) hi ((lo + hi) / 2) h2
        (fun x hx1 hx2 => hbelow x (by linarith) hx2)]
    have hp : (2 : ℚ) ^ (k + 1 + 1) = 2 ^ (k + 1) * 2 := pow_succ 2 (k + 1)
    rw [hp]
    have hne : (2 : ℚ) ^ (k + 1) ≠ 0 := by positivity
    field_simp
    ring

/-- Affine form of the Bulgaria employer cost. -/
lemma bulgaria_cost_eq (g e p : ℚ) :
    (bulgariaEmployee g e p).entireExpense = g * (11918/10000) := by
  rw [bulgariaEmployee_entireExpense]; ring

/-- Affine form of the Estonia employer cost. -/
lemma estonia_cost_eq (g e p : ℚ) :
    (estoniaEmployee g e p).entireExpense = g * (1338/1000) := by
  rw [estoniaEmployee_entireExpense]; ring

/-! ## Claims -/

/-- C1: the bisection primitive: each iteration computes `mid = (low+high)/2`
and evaluates `fn` there once (the instrumented loop counts at most one
evaluation per iteration, so at most `maxIter` in total); it returns `mid`
immediately when `|fn mid - target| < tolerance`, otherwise narrows to the
lower half when `fn mid > target` and to the upper half otherwise; when the
iterations are exhausted it returns the last computed midpoint; it is a total
function (never raises), and with target 0 and the degenerate bracket `[0, 0]`
it terminates and returns 0. -/
theorem binarySearchGross_spec (fn : ℚ → ℚ) (target lo hi m tol : ℚ) (n : ℕ) :
    (bsGo fn target tol lo hi m (n + 1) =
      if |fn ((lo + hi) / 2) - target| < tol then (lo + hi) / 2
      else if target < fn ((lo + hi) / 2) then
        bsGo fn target tol lo ((lo + hi) / 2) ((lo + hi) / 2) n
      else bsGo fn target tol ((lo + hi) / 2) hi ((lo + hi) / 2) n) ∧
    bsGo fn target tol lo hi m 0 = m ∧
    binarySearchGross fn target lo hi tol n = bsGo fn target tol lo hi 0 n ∧
    (bsGoCount fn target tol lo hi m n).1 = bsGo fn target tol lo hi m n ∧
    (bsGoCount fn target tol lo hi m n).2 ≤ n ∧
    binarySearchGross fn 0 0 0 tol 50 = 0 :=
  ⟨bsGo_succ fn target tol lo hi m n, bsGo_zero fn target tol lo hi m, rfl,
    bsGoCount_fst fn target tol n lo hi m, bsGoCount_le fn target tol n lo hi m,
    bsGo_degenerate fn tol 50⟩

/-- C2 (counterexample): the net round-trip fails for Greece at target net
5000 with 14 payments: the true gross (≈10392) lies outside the bracket
`[5000, 10000]`, the search converges to the upper endpoint, and the recovered
net is ≈4838.25, off by far more than the 0.01 tolerance. -/
theorem greece_net_roundtrip_counterexample :
    ¬ |(greeceEmployee (findGreeceGrossForNet 5000 14) 0 14).net - 5000| < 1/100 := by
  have hnet10000 : (greeceEmployee 10000 0 14).net = 120956/25 := by
    rw [greeceEmployee_net]
    norm_num [greeceIncomeTax, greeceSolidarity]
  have hkey : ∀ x : ℚ, 5000 ≤ x → x ≤ 10000 →
      (greeceEmployee x 0 14).net ≤ 5000 - 1/100 := by
    intro x h1 h2
    have hm := greece_net_mono (show (0:ℚ) < 14 by norm_num) h2 0
    rw [hnet10000] at hm
    linarith
  have hfind : findGreeceGrossForNet 5000 14 = 10000 - 5000 / 2 ^ 50 := by
    have h := bsGo_all_low (fun g => (greeceEmployee g 0 14).net) 5000 (1/100)
      (by norm_num) 49 5000 10000 0 (by norm_num) hkey
    have h2 : findGreeceGrossForNet 5000 14 =
        bsGo (fun g => (greeceEmployee g 0 14).net) 5000 (1/100) 5000 10000 0 50 := by
      simp only [findGreeceGrossForNet, binarySearchGross]
      norm_num
    rw [h2, show (50 : ℕ) = 49 + 1 from rfl, h]
    norm_num
  rw [hfind]
  have hg1 : (5000 : ℚ) ≤ 10000 - 5000 / 2 ^ 50 := by norm_num
  have hg2 : (10000 : ℚ) - 5000 / 2 ^ 50 ≤ 10000 := by norm_num
  have hb := hkey _ hg1 hg2
  intro hc
  rw [abs_lt] at hc
  linarith

/-- C2 (amended): the net round-trip within tolerance 0.01 holds for Bulgaria
(exactly) for every positive target, for Estonia for every positive target
below `2^50/100`, and for Greece under the same bound provided additionally
that the initial bracket is valid, i.e. the forward net at gross `2n` exceeds
`n` (which the counterexample shows can fail for large targets). -/
theorem gross_for_net_roundtrip (n p : ℚ) (hn : 0 < n)
    (hbound : n < (1/100) * 2 ^ 50) (hp : 1 ≤ p)
    (hbracket : n < (greeceEmployee (n * 2) 0 p).net) :
    |(bulgariaEmployee (findBulgariaGrossForNet n)).net - n| < 1/100 ∧
    |(estoniaEmployee (findEstoniaGrossForNet n)).net - n| < 1/100 ∧
    |(greeceEmployee (findGreeceGrossForNet n p) 0 p).net - n| < 1/100 := by
  have hp0 : (0:ℚ) < p := lt_of_lt_of_le one_pos hp
  refine ⟨?_, ?_, ?_⟩
  · have hexact : (bulgariaEmployee (findBulgariaGrossForNet n)).net = n := by
      rw [bulgariaEmployee_net, findBulgariaGrossForNet]
      field_simp
      ring
    rw [hexact]
    norm_num
  · have h := bsGo_conv (fun g => (estoniaEmployee g).net) n (1/100)
      (fun x y hxy => estonia_net_lip hxy) 49 n (n * 2) 0
      (estonia_net_le hn.le) (estonia_net_2x hn) (by linarith)
      (by rw [show (49:ℕ) + 1 = 50 from rfl]; linarith)
    exact h
  · have h := bsGo_conv (fun g => (greeceEmployee g 0 p).net) n (1/100)
      (fun x y hxy => greece_net_lip hp0 hxy 0) 49 n (n * 2) 0
      (greece_net_le hn.le hp0 0) hbracket (by linarith)
      (by rw [show (49:ℕ) + 1 = 50 from rfl]; linarith)
    exact h

/-- C2 (witness): the amended round-trip at target net 1000 with 14 payments. -/
theorem gross_for_net_roundtrip_witness :
    |(bulgariaEmployee (findBulgariaGrossForNet 1000)).net - 1000| < 1/100 ∧
    |(estoniaEmployee (findEstoniaGrossForNet 1000)).net - 1000| < 1/100 ∧
    |(greeceEmployee (findGreeceGrossForNet 1000 14) 0 14).net - 1000| < 1/100 :=
  gross_for_net_roundtrip 1000 14 (by norm_num) (by norm_num) (by norm_num)
    (by rw [greeceEmployee_net]; norm_num [greeceIncomeTax, greeceSolidarity])

/-- C3: the invariant `totalTax ≤ monthlyGross` fails for Greece: at monthly
gross 1000 with 14 payments the returned `tax` is the annual total
3322.4144, far above the monthly gross (the source leaves `tax` annual while
`net` and `entireExpense` are converted to monthly figures). -/
theorem greece_tax_exceeds_monthly_gross :
    (greeceEmployee 1000 0 14).tax = 2076509/625 ∧
    1000 < (greeceEmployee 1000 0 14).tax := by
  have h : (greeceEmployee 1000 0 14).tax = 2076509/625 := by
    rw [greeceEmployee_tax]
    norm_num [greeceIncomeTax, greeceSolidarity]
  refine ⟨h, ?_⟩
  rw [h]
  norm_num

/-- C4: with expenses and payments fixed, every jurisdiction's Employee `net`
and `entireExpense` are non-decreasing in gross, including across Estonia's
phase-out region and Greece's bracket boundaries. -/
theorem employee_monotone_in_gross (c : Country) (e p x y : ℚ)
    (hp : 1 ≤ p) (hx : 0 ≤ x) (hxy : x ≤ y) :
    (taxRules c .Employee x e p).net ≤ (taxRules c .Employee y e p).net ∧
    (taxRules c .Employee x e p).entireExpense ≤
      (taxRules c .Employee y e p).entireExpense := by
  have hp0 : (0:ℚ) < p := lt_of_lt_of_le one_pos hp
  cases c
  · constructor
    · show (bulgariaEmployee x e p).net ≤ (bulgariaEmployee y e p).net
      rw [bulgariaEmployee_net, bulgariaEmployee_net]
      linarith
    · show (bulgariaEmployee x e p).entireExpense ≤ (bulgariaEmployee y e p).entireExpense
      rw [bulgaria_cost_eq, bulgaria_cost_eq]
      linarith
  · constructor
    · exact estonia_net_mono hxy
    · show (estoniaEmployee x e p).entireExpense ≤ (estoniaEmployee y e p).entireExpense
      rw [estonia_cost_eq, estonia_cost_eq]
      linarith
  · constructor
    · exact greece_net_mono hp0 hxy e
    · show (greeceEmployee x e p).entireExpense ≤ (greeceEmployee y e p).entireExpense
      rw [greece_cost_eq (ne_of_gt hp0), greece_cost_eq (ne_of_gt hp0)]
      linarith

/-- C4 (witness): monotonicity instantiated for Greece at gross 1000 ≤ 2000. -/
theorem employee_monotone_in_gross_witness :
    (taxRules .Greece .Employee 1000 0 14).net ≤ (taxRules .Greece .Employee 2000 0 14).net ∧
    (taxRules .Greece .Employee 1000 0 14).entireExpense ≤
      (taxRules .Greece .Employee 2000 0 14).entireExpense :=
  employee_monotone_in_gross .Greece 0 14 1000 2000 (by norm_num) (by norm_num) (by norm_num)

/-- C5: for every jurisdiction, the Employee forward calculation at any
gross ≥ 0 and valid payment count returns `net ≤ gross` and
`entireExpense ≥ gross`. -/
theorem employee_net_le_gross (c : Country) (g e p : ℚ) (hg : 0 ≤ g) (hp : 1 ≤ p) :
    (taxRules c .Employee g e p).net ≤ g ∧
    g ≤ (taxRules c .Employee g e p).entireExpense := by
  have hp0 : (0:ℚ) < p := lt_of_lt_of_le one_pos hp
  cases c
  · constructor
    · show (bulgariaEmployee g e p).net ≤ g
      rw [bulgariaEmployee_net]
      linarith
    · show g ≤ (bulgariaEmployee g e p).entireExpense
      rw [bulgaria_cost_eq]
      linarith
  · constructor
    · exact estonia_net_le hg
    · show g ≤ (estoniaEmployee g e p).entireExpense
      rw [estonia_cost_eq]
      linarith
  · constructor
    · exact greece_net_le hg hp0 e
    · show g ≤ (greeceEmployee g e p).entireExpense
      rw [greece_cost_eq (ne_of_gt hp0)]
      linarith

/-- C5 (witness): bounds instantiated for Greece at gross 1000, 14 payments. -/
theorem employee_net_le_gross_witness :
    (taxRules .Greece .Employee 1000 0 14).net ≤ 1000 ∧
    1000 ≤ (taxRules .Greece .Employee 1000 0 14).entireExpense :=
  employee_net_le_gross .Greece 1000 0 14 (by norm_num) (by norm_num)

/-- C6: total-cost inversion is a single closed-form division for every
jurisdiction, the employer cost is an affine zero-intercept function of gross
in all three, and the round-trip through the forward calculation recovers the
target cost exactly (hence within any tolerance). -/
theorem gross_for_total_cost_roundtrip (c p : ℚ) (hc : 0 < c) (hp : 1 ≤ p) :
    findBulgariaGrossForEntireExpense c = c / (11918/10000) ∧
    (bulgariaEmployee (findBulgariaGrossForEntireExpense c)).entireExpense = c ∧
    findEstoniaGrossForEntireExpense c = c / (1338/1000) ∧
    (estoniaEmployee (findEstoniaGrossForEntireExpense c)).entireExpense = c ∧
    findGreeceGrossForEntireExpense c p = c / (12229/10000) ∧
    (greeceEmployee (findGreeceGrossForEntireExpense c p) 0 p).entireExpense = c ∧
    (∀ g e sp : ℚ, (bulgariaEmployee g e sp).entireExpense = g * (11918/10000)) ∧
    (∀ g e sp : ℚ, (estoniaEmployee g e sp).entireExpense = g * (1338/1000)) ∧
    (∀ g e : ℚ, (greeceEmployee g e p).entireExpense = g * (12229/10000)) := by
  have hp0 : p ≠ 0 := ne_of_gt (lt_of_lt_of_le one_pos hp)
  refine ⟨rfl, ?_, rfl, ?_, rfl, ?_, bulgaria_cost_eq, estonia_cost_eq,
    fun g e => greece_cost_eq hp0 g e⟩
  · rw [bulgaria_cost_eq]
    simp only [findBulgariaGrossForEntireExpense]
    exact div_mul_cancel₀ c (by norm_num)
  · rw [estonia_cost_eq]
    simp only [findEstoniaGrossForEntireExpense]
    exact div_mul_cancel₀ c (by norm_num)
  · rw [greece_cost_eq hp0]
    simp only [findGreeceGrossForEntireExpense]
    exact div_mul_cancel₀ c (by norm_num)

/-- C6 (witness): the Bulgaria total-cost round-trip at target cost 100. -/
theorem gross_for_total_cost_roundtrip_witness :
    (bulgariaEmployee (findBulgariaGrossForEntireExpense 100)).entireExpense = 100 :=
  (gross_for_total_cost_roundtrip 100 14 (by norm_num) (by norm_num)).2.1

/-- C7 (counterexample): the forward calculation does not fail on negative
income: Bulgaria Employee at income −1000 silently returns the numeric net
−775.98 instead of raising a domain error. -/
theorem negative_income_returns_number :
    (taxRules .Bulgaria .Employee (-1000) 0 12).net = -(38799/50) := by
  show (bulgariaEmployee (-1000) 0 12).net = -(38799/50)
  rw [bulgariaEmployee_net]
  norm_num

/-- C7 (amended): the forward calculation performs no input validation and
never fails: the rule table is total on all nine (country, profile) pairs,
and a negative income with any payment count ≥ 1 silently produces a numeric
(negative) net rather than an error. -/
theorem no_validation_negative_net (c : Country) (pr : Profile) (inc sp : ℚ)
    (hinc : inc < 0) (hsp : 1 ≤ sp) :
    (taxRules c pr inc 0 sp).net < 0 := by
  have hsp0 : (0:ℚ) < sp := lt_of_lt_of_le one_pos hsp
  have hps : inc * sp ≤ inc := by
    have h1 := mul_le_mul_of_nonpos_left hsp (le_of_lt hinc)
    linarith [h1]
  have hflat : ∀ r k : ℚ, 0 < k → (flatPlaceholder r k inc 0).net < 0 := by
    intro r k hk
    rw [flatPlaceholder_net]
    exact mul_neg_of_neg_of_pos (by linarith) hk
  have hbulg : (bulgariaEmployee inc 0 sp).net < 0 := by
    rw [bulgariaEmployee_net]
    linarith
  have hest : (estoniaEmployee inc 0 sp).net < 0 := by
    rw [estoniaEmployee_net]
    have hm := le_max_left (0:ℚ)
      ((inc - inc * (2/100) - inc * (16/1000) - estoniaTaxFree inc) * (22/100))
    linarith
  have hgreece : (greeceEmployee inc 0 sp).net < 0 := by
    rw [greeceEmployee_net, greeceSolidarity_eq]
    have ht : inc * sp - inc * (1412/10000) * sp < 0 := by nlinarith
    rw [if_pos (show inc * sp - inc * (1412/10000) * sp ≤ 12000 by linarith)]
    simp only [greeceIncomeTax]
    rw [if_pos (show inc * sp - inc * (1412/10000) * sp ≤ 10000 by linarith)]
    exact div_neg_of_neg_of_pos (by linarith) hsp0
  cases c <;> cases pr
  · exact hbulg
  · exact hflat (15/100) (85/100) (by norm_num)
  · exact hflat (12/100) (88/100) (by norm_num)
  · exact hest
  · exact hflat (25/100) (75/100) (by norm_num)
  · exact hflat (20/100) (80/100) (by norm_num)
  · exact hgreece
  · exact hflat (26/100) (74/100) (by norm_num)
  · exact hflat (24/100) (76/100) (by norm_num)

/-- C7 (witness): a negative numeric net for Estonia Employee at income −100. -/
theorem no_validation_negative_net_witness :
    (taxRules .Estonia .Employee (-100) 0 12).net < 0 :=
  no_validation_negative_net .Estonia .Employee (-100) 12 (by norm_num) (by norm_num)

/-- C8: Estonia's monthly tax-free allowance is the full 654 at monthly gross
1200 (annual gross exactly at the lower threshold 14400) and exactly 0 at
monthly gross 2200 (annual 26400, above the upper threshold 25200), as
reported in the Employee breakdown. -/
theorem estonia_taxfree_thresholds :
    estoniaTaxFree 1200 = 654 ∧ estoniaTaxFree 2200 = 0 ∧
    ("Tax-free Allowance", (654 : ℚ)) ∈ (estoniaEmployee 1200).breakdown ∧
    ("Tax-free Allowance", (0 : ℚ)) ∈ (estoniaEmployee 2200).breakdown := by
  have h1 : estoniaTaxFree 1200 = 654 := by norm_num [estoniaTaxFree]
  have h2 : estoniaTaxFree 2200 = 0 := by norm_num [estoniaTaxFree]
  refine ⟨h1, h2, ?_, ?_⟩ <;> simp [estoniaEmployee, h1, h2]

/-- C9: the Bulgaria and Estonia Employee calculations ignore their expenses
and payments parameters entirely (identical `TaxBreakdown` for any two
choices), while the Greece Employee result does depend on the payment count
(12 vs 14 payments change the tax at gross 1000). -/
theorem employee_param_noninterference (income e1 e2 p1 p2 : ℚ) :
    bulgariaEmployee income e1 p1 = bulgariaEmployee income e2 p2 ∧
    estoniaEmployee income e1 p1 = estoniaEmployee income e2 p2 ∧
    (greeceEmployee 1000 0 12).tax ≠ (greeceEmployee 1000 0 14).tax := by
  refine ⟨rfl, rfl, ?_⟩
  rw [greeceEmployee_tax, greeceEmployee_tax]
  norm_num [greeceIncomeTax, greeceSolidarity]

/-- C10: every placeholder non-employee profile returns
`entireExpense = income` and `tax + net = income − expenses` exactly; when
expenses exceed income both tax and net are negative (no clamping at zero). -/
theorem placeholder_profiles_spec (c : Country) (pr : Profile) (inc e sp : ℚ)
    (hpr : pr ≠ Profile.Employee) :
    (taxRules c pr inc e sp).entireExpense = inc ∧
    (taxRules c pr inc e sp).tax + (taxRules c pr inc e sp).net = inc - e ∧
    (inc < e → (taxRules c pr inc e sp).tax < 0 ∧ (taxRules c pr inc e sp).net < 0) := by
  cases c <;> cases pr <;>
    first
    | exact absurd rfl hpr
    | (refine ⟨rfl, ?_, fun hlt => ⟨?_, ?_⟩⟩
       · show (flatPlaceholder _ _ inc e).tax + (flatPlaceholder _ _ inc e).net = inc - e
         rw [flatPlaceholder_tax, flatPlaceholder_net]
         ring
       · show (flatPlaceholder _ _ inc e).tax < 0
         rw [flatPlaceholder_tax]
         nlinarith
       · show (flatPlaceholder _ _ inc e).net < 0
         rw [flatPlaceholder_net]
         nlinarith)

/-- C10 (witness): Bulgaria Self-Employed at income 100, expenses 150. -/
theorem placeholder_profiles_spec_witness :
    (taxRules .Bulgaria .SelfEmployed 100 150 12).entireExpense = 100 ∧
    (taxRules .Bulgaria .SelfEmployed 100 150 12).tax +
      (taxRules .Bulgaria .SelfEmployed 100 150 12).net = 100 - 150 ∧
    ((taxRules .Bulgaria .SelfEmployed 100 150 12).tax < 0 ∧
      (taxRules .Bulgaria .SelfEmployed 100 150 12).net < 0) := by
  obtain ⟨h1, h2, h3⟩ :=
    placeholder_profiles_spec .Bulgaria .SelfEmployed 100 150 12 (by intro h; cases h)
  exact ⟨h1, h2, h3 (by norm_num)⟩

end TaxCompare
